import Mathlib

/-!
Shallow embedding of `src/app.py` (Singapore flood-risk assessment tool).

Modelling conventions:
* Python floats are modelled as exact rationals (`ℚ`).
* Python's `random.random()` stream is modelled as an explicit random source
  `RNG`: an infinite sequence of rationals together with a cursor; each draw
  reads the current value and advances the cursor.  The invariant that the
  values lie in `[0, 1)` (the contract of `random.random`) is carried as a
  hypothesis where needed.
* Fallible constructs (`next(...)` on a possibly-empty generator) become
  `Option`.
* Strings are Lean `String`s; Python's `re` digit class `\d` is modelled on
  ASCII characters (on ASCII input it coincides with Python; on non-ASCII
  input Python's `\d` also matches other Unicode decimal digits, which only
  widens the set accepted by the source even further beyond six ASCII digits).
-/

namespace FloodTool

/-- `get_text_color` helper: numeric value of one hexadecimal digit character,
as `int(s, 16)` assigns to it (0 for characters that are not hex digits; the
function is only ever applied to hex digits). -/
def hexDigitVal (c : Char) : ℕ :=
  if '0' ≤ c ∧ c ≤ '9' then c.toNat - '0'.toNat
  else if 'a' ≤ c ∧ c ≤ 'f' then c.toNat - 'a'.toNat + 10
  else if 'A' ≤ c ∧ c ≤ 'F' then c.toNat - 'A'.toNat + 10
  else 0

/-- `int(s, 16)` applied to a two-character slice: value of a two-hex-digit
string. -/
def hexByte (cs : List Char) : ℕ :=
  match cs with
  | [h, l] => 16 * hexDigitVal h + hexDigitVal l
  | _ => 0

/-- `get_text_color` (app.py lines 11-16): decode `bg_color[1:3]`,
`bg_color[3:5]`, `bg_color[5:7]` as hex bytes, compute the relative
luminance `(0.299*r + 0.587*g + 0.114*b) / 255`, and return `black` when it
exceeds `0.5`, else `white`. -/
def get_text_color (bg_color : String) : String :=
  let cs := bg_color.data
  let r : ℚ := hexByte ((cs.drop 1).take 2)
  let g : ℚ := hexByte ((cs.drop 3).take 2)
  let b : ℚ := hexByte ((cs.drop 5).take 2)
  let luminance : ℚ := (299/1000 * r + 587/1000 * g + 114/1000 * b) / 255
  if luminance > 1/2 then "black" else "white"

/-- `get_risk_class` (app.py lines 30-36): map a flood depth to a risk level
and a display color. -/
def get_risk_class (depth : ℚ) : String × String :=
  if depth < 1/2 then ("Low", "#50d890")
  else if depth ≤ 1 then ("Medium", "#ffc26f")
  else ("High", "#ff595e")

/-- Round a rational to the nearest integer, ties to even: the rounding used
when a decimal numeral is produced for a value (models the rounding step of
`f"{depth:.2f}"`; the binary value is modelled as the exact rational). -/
def roundHalfEven (q : ℚ) : ℤ :=
  let n : ℤ := ⌊q⌋
  let r : ℚ := q - n
  if r < 1/2 then n
  else if 1/2 < r then n + 1
  else if n % 2 = 0 then n else n + 1

/-- Digits-and-dot core of `f"{q:.2f}"` for `q ≥ 0`: scale by 100, round, and
print integer part, a dot, and exactly two fractional digits. -/
def fmt2Core (q : ℚ) : List Char :=
  let n := (roundHalfEven (q * 100)).toNat
  Nat.toDigits 10 (n / 100) ++ '.' :: [Nat.digitChar (n % 100 / 10), Nat.digitChar (n % 10)]

/-- Python's fixed-point formatting `f"{depth:.2f}"` (app.py line 45), on the
exact-rational model of the float value: a minus sign for negative values,
then the magnitude with exactly two digits after the decimal point. -/
def formatTwoDecimals (q : ℚ) : String :=
  if q < 0 then ⟨'-' :: fmt2Core (-q)⟩ else ⟨fmt2Core q⟩

/-- A string has exactly two decimal places: its characters end with a dot
followed by exactly two digits, and no other dot occurs. -/
def twoDecimalPlaces (s : String) : Prop :=
  ∃ pre t o, s.data = pre ++ ['.', t, o] ∧ '.' ∉ pre ∧
    t.isDigit = true ∧ o.isDigit = true

/-- One row of the flood table built by `make_flood_table_rows`: the dict
keys `"Scenario"`, `"Flood Depth (m)"`, `"Risk Level"`, `"Color"` become the
fields `scenario`, `floodDepth`, `riskLevel`, `color`. -/
structure Row where
  scenario : String
  floodDepth : String
  riskLevel : String
  color : String
deriving DecidableEq

/-- `make_flood_table_rows` (app.py lines 39-49): zip the scenario names with
the two depths and build one row per scenario, with the depth formatted to
two decimal places and the level/color from `get_risk_class`. -/
def make_flood_table_rows (baseline rcp85 : ℚ) : List Row :=
  (List.zip ["Baseline", "RCP8.5"] [baseline, rcp85]).map fun sd =>
    let rc := get_risk_class sd.2
    { scenario := sd.1, floodDepth := formatTwoDecimals sd.2,
      riskLevel := rc.1, color := rc.2 }

/-- `highlight_risk` (app.py lines 52-54): `next(...)` over the first row of
`table_rows` whose scenario matches `row`'s becomes `Option`; `none` models
the `StopIteration` exception when no row matches. -/
def highlight_risk (row : Row) (table_rows : List Row) : Option (List String) :=
  (table_rows.find? fun r => r.scenario == row.scenario).map
    fun r => ["", "", "color: " ++ r.color ++ "; font-weight: bold;"]

/-- `re.match(r'^\d{6}$', postal_code)` (app.py line 166) as a predicate on
strings, by the semantics of Python's `re`: the pattern matches iff the
string is six digits, or six digits followed by one final newline (`$`
asserts end-of-string or the position just before a terminal newline).
`\d` is modelled by the ASCII digit test; on non-ASCII input Python's `\d`
additionally matches the other Unicode decimal digits, which only widens
what the source accepts beyond six ASCII digits. -/
def pyMatchSixDigits (s : String) : Bool :=
  (s.data.length == 6 && s.data.all Char.isDigit) ||
    (s.data.length == 7 && (s.data.take 6).all Char.isDigit &&
      s.data.getLast? == some '\n')

/-- Modelled from the spec: a postal code is valid iff it consists of exactly
6 decimal digits, with no leading or trailing characters and no whitespace. -/
def isSixDigits (s : String) : Bool :=
  s.data.length == 6 && s.data.all Char.isDigit

/-- The second alternative the source's regex actually accepts: six digits
followed by a single terminal newline. -/
def isSixDigitsNewline (s : String) : Bool :=
  s.data.length == 7 && (s.data.take 6).all Char.isDigit &&
    s.data.getLast? == some '\n'

/-- A string whose characters are all ASCII (the fragment on which the
embedding of `\d` agrees exactly with Python). -/
def isAsciiString (s : String) : Bool :=
  s.data.all fun c => c.toNat < 128

/-- One database entry as loaded from `database.json.gz`, with the fields
`main` reads: `POSTAL`, `ADDRESS`, `ROAD_NAME`, `BUILDING`, `LATITUDE`,
`LONGITUDE`. -/
structure Entry where
  postal : String
  address : String
  roadName : String
  building : String
  latitude : ℚ
  longitude : ℚ
deriving DecidableEq

/-- An entry augmented with the two random flags `IS_FLOOD_PRONE` and
`IS_FLOOD_HOTSPOT` that `load_data` adds. -/
structure Record where
  entry : Entry
  isFloodProne : Bool
  isFloodHotspot : Bool
deriving DecidableEq

/-- The random source behind `random.random()`: an infinite sequence of
rationals and a cursor.  Each draw reads the current value and advances the
cursor; the `random.random` contract (values in `[0, 1)`) is a hypothesis
where a theorem needs it. -/
structure RNG where
  vals : ℕ → ℚ
  idx : ℕ

/-- One draw of `random.random()`. -/
def RNG.next (g : RNG) : ℚ × RNG :=
  (g.vals g.idx, ⟨g.vals, g.idx + 1⟩)

/-- One step of the dict comprehension
`{entry['POSTAL']: entry for entry in data}`: a repeated key keeps its
first position but is remapped to the later entry; a new key is appended. -/
def insertLastWins (d : List (String × Entry)) (e : Entry) :
    List (String × Entry) :=
  if d.any fun p => p.1 == e.postal then
    d.map fun p => if p.1 == e.postal then (p.1, e) else p
  else d ++ [(e.postal, e)]

/-- The dict comprehension of `load_data` (app.py line 23). -/
def buildPostalDict (data : List Entry) : List (String × Entry) :=
  data.foldl insertLastWins []

/-- The flag-assignment loop of `load_data` (app.py lines 24-26): for each
entry of the dict, in order, draw `IS_FLOOD_PRONE` as `random.random() < 0.15`
and then `IS_FLOOD_HOTSPOT` as `random.random() < 0.10`. -/
def assignFlags : List (String × Entry) → RNG → List (String × Record) × RNG
  | [], g => ([], g)
  | (k, e) :: rest, g =>
    let r1 := g.next
    let r2 := r1.2.next
    let tail := assignFlags rest r2.2
    ((k, ⟨e, decide (r1.1 < 15/100), decide (r2.1 < 10/100)⟩) :: tail.1, tail.2)

/-- The body of `load_data` (app.py lines 20-27): build the postal dict and
assign the two random flags to every record. -/
def load_data (data : List Entry) (g : RNG) : List (String × Record) × RNG :=
  assignFlags (buildPostalDict data) g

/-- The `@st.cache_data` wrapper on `load_data` (app.py line 19), by
Streamlit's documented contract: the first call runs the body and stores the
result; a later call with no intervening cache invalidation returns the
stored mapping without rerunning the body (and so without drawing from the
random source). -/
def load_data_cached (data : List Entry)
    (cache : Option (List (String × Record))) (g : RNG) :
    List (String × Record) × Option (List (String × Record)) × RNG :=
  match cache with
  | some s => (s, some s, g)
  | none =>
    ((load_data data g).1, some (load_data data g).1, (load_data data g).2)

/-- Outcome of one submitted search in `main`. -/
inductive QueryOutcome where
  | noInput
  | invalidFormat
  | notFound
  | found (r : Record)
deriving DecidableEq

/-- The lookup pipeline of `main` for one submitted search (app.py lines
166-177 and 286-287): an empty input only shows the help prompt; a non-empty
input failing the regex is rejected as `invalidFormat` before any store
access; a code present in the store yields its record; a well-formed absent
code is `notFound`.  The store is returned alongside the outcome to express
that no branch mutates it. -/
def runQuery (store : List (String × Record)) (code : String) :
    QueryOutcome × List (String × Record) :=
  if code = "" then (QueryOutcome.noInput, store)
  else if pyMatchSixDigits code then
    match store.lookup code with
    | some r => (QueryOutcome.found r, store)
    | none => (QueryOutcome.notFound, store)
  else (QueryOutcome.invalidFormat, store)

/-- `random.uniform(a, b)`: `a + (b - a) * random.random()`. -/
def uniform (a b : ℚ) (g : RNG) : ℚ × RNG :=
  (a + (b - a) * g.next.1, g.next.2)

/-- `get_flood_depth` (app.py lines 57-58): two draws of
`random.uniform(0, 1.5)`; the postal code and the coordinates are accepted
but ignored. -/
def get_flood_depth (postal_code : String) (lat lon : ℚ) (g : RNG) :
    (ℚ × ℚ) × RNG :=
  let d1 := uniform 0 (3/2) g
  let d2 := uniform 0 (3/2) d1.2
  ((d1.1, d2.1), d2.2)

/-- Modelled from the spec: the contrast helper's contract, decoding a color
written as a hash mark followed by six hex digits and applying the stated
luminance formula `L = (0.299*R + 0.587*G + 0.114*B)/255` with threshold
`L > 0.5` for black. -/
def textColorSpec (s : String) : String :=
  match s.data with
  | ['#', r1, r2, g1, g2, b1, b2] =>
    let R : ℚ := 16 * hexDigitVal r1 + hexDigitVal r2
    let G : ℚ := 16 * hexDigitVal g1 + hexDigitVal g2
    let B : ℚ := 16 * hexDigitVal b1 + hexDigitVal b2
    if (299/1000 * R + 587/1000 * G + 114/1000 * B) / 255 > 1/2 then "black"
    else "white"
  | _ => ""

/-- A hexadecimal digit character. -/
def isHexDigitChar (c : Char) : Bool :=
  c.isDigit || ('a' ≤ c && c ≤ 'f') || ('A' ≤ c && c ≤ 'F')

/-- A string of the form hash mark followed by six hex digits. -/
def isHashHexColor (s : String) : Bool :=
  match s.data with
  | '#' :: rest => rest.length == 6 && rest.all isHexDigitChar
  | _ => false

/-- A concrete record, for witnesses. -/
def demoRecord : Record :=
  ⟨⟨"018989", "10 BAYFRONT AVENUE", "BAYFRONT AVENUE", "NIL",
    1287/1000, 103859/1000⟩, false, true⟩

/-- A concrete one-record store, for witnesses. -/
def demoStore : List (String × Record) := [("018989", demoRecord)]

end FloodTool

namespace FloodTool

/-- Helper: `Nat.digitChar` of a value below ten is an ASCII digit. -/
theorem digitChar_isDigit (k : ℕ) (h : k < 10) :
    (Nat.digitChar k).isDigit = true := by
  interval_cases k <;> decide

/-- Helper: every character accumulated by `Nat.toDigitsCore` in base 10 is a
digit, provided the accumulator holds only digits. -/
theorem toDigitsCore_digits (fuel : ℕ) :
    ∀ (n : ℕ) (acc : List Char), (∀ c ∈ acc, c.isDigit = true) →
      ∀ c ∈ Nat.toDigitsCore 10 fuel n acc, c.isDigit = true := by
  induction fuel with
  | zero => intro n acc hacc c hc; exact hacc c hc
  | succ f ih =>
    intro n acc hacc c hc
    simp only [Nat.toDigitsCore] at hc
    have hcons : ∀ c ∈ Nat.digitChar (n % 10) :: acc, c.isDigit = true := by
      intro c' hc'
      rcases List.mem_cons.mp hc' with h | h
      · subst h; exact digitChar_isDigit _ (Nat.mod_lt _ (by norm_num))
      · exact hacc c' h
    split at hc
    · exact hcons c hc
    · exact ih (n / 10) _ hcons c hc

/-- Helper: every character of `Nat.toDigits 10 n` is a digit. -/
theorem toDigits_digits (n : ℕ) : ∀ c ∈ Nat.toDigits 10 n, c.isDigit = true :=
  toDigitsCore_digits (n + 1) n [] (by intro c hc; cases hc)

/-- Helper: `fmt2Core` always produces some digits, a dot, and two digits. -/
theorem fmt2Core_shape (q : ℚ) :
    ∃ pre t o, fmt2Core q = pre ++ ['.', t, o] ∧ '.' ∉ pre ∧
      t.isDigit = true ∧ o.isDigit = true := by
  refine ⟨Nat.toDigits 10 ((roundHalfEven (q * 100)).toNat / 100),
    Nat.digitChar ((roundHalfEven (q * 100)).toNat % 100 / 10),
    Nat.digitChar ((roundHalfEven (q * 100)).toNat % 10), rfl, ?_, ?_, ?_⟩
  · intro hmem
    have := toDigits_digits _ '.' hmem
    simp [Char.isDigit] at this
  · exact digitChar_isDigit _ (by omega)
  · exact digitChar_isDigit _ (Nat.mod_lt _ (by norm_num))

/-- Helper: `formatTwoDecimals` always has exactly two decimal places. -/
theorem formatTwoDecimals_twoDecimalPlaces (q : ℚ) :
    twoDecimalPlaces (formatTwoDecimals q) := by
  unfold formatTwoDecimals
  obtain ⟨pre, t, o, heq, hdot, ht, ho⟩ := fmt2Core_shape q
  obtain ⟨pre', t', o', heq', hdot', ht', ho'⟩ := fmt2Core_shape (-q)
  split
  · exact ⟨'-' :: pre', t', o', by simp [heq'], by
      intro h
      rcases List.mem_cons.mp h with h | h
      · exact absurd h (by decide)
      · exact hdot' h, ht', ho'⟩
  · exact ⟨pre, t, o, by simp [heq], hdot, ht, ho⟩

/-- Helper: rounding an integer value is the identity. -/
theorem roundHalfEven_intCast (m : ℤ) : roundHalfEven (m : ℚ) = m := by
  unfold roundHalfEven
  simp [Int.floor_intCast]

/-- Helper: `0.5` is formatted as the string `"0.50"`. -/
theorem formatTwoDecimals_half : formatTwoDecimals (1/2) = "0.50" := by
  have h1 : ¬((1:ℚ)/2 < 0) := by norm_num
  rw [formatTwoDecimals, if_neg h1, fmt2Core]
  have h2 : ((1:ℚ)/2) * 100 = ((50:ℤ):ℚ) := by norm_num
  rw [h2, roundHalfEven_intCast]
  rfl

/-- Claim C2: `make_flood_table_rows b f` returns exactly two rows, the first
for scenario `Baseline` computed from `b` and the second for `RCP8.5`
computed from `f`, each carrying the depth formatted to exactly two decimal
places (`0.5` becomes `"0.50"`), the risk level, and the color produced by
the classifier for that depth. -/
theorem make_flood_table_rows_spec (b f : ℚ) :
    make_flood_table_rows b f =
      [{ scenario := "Baseline", floodDepth := formatTwoDecimals b,
         riskLevel := (get_risk_class b).1, color := (get_risk_class b).2 },
       { scenario := "RCP8.5", floodDepth := formatTwoDecimals f,
         riskLevel := (get_risk_class f).1, color := (get_risk_class f).2 }] ∧
    (make_flood_table_rows b f).length = 2 ∧
    formatTwoDecimals (1/2) = "0.50" ∧
    (∀ d : ℚ, twoDecimalPlaces (formatTwoDecimals d)) :=
  ⟨rfl, rfl, formatTwoDecimals_half, formatTwoDecimals_twoDecimalPlaces⟩

/-- Claim C10: for any depths `b`, `f` and any row `r` of
`make_flood_table_rows b f`, `highlight_risk r` applied to those rows never
fails: its scenario search finds a match and it returns two empty style
strings followed by a bold color style naming `r`'s own color. -/
theorem highlight_risk_on_table_rows (b f : ℚ) (r : Row)
    (hr : r ∈ make_flood_table_rows b f) :
    highlight_risk r (make_flood_table_rows b f) =
      some ["", "", "color: " ++ r.color ++ "; font-weight: bold;"] := by
  have h2 : r = { scenario := "Baseline", floodDepth := formatTwoDecimals b,
                  riskLevel := (get_risk_class b).1, color := (get_risk_class b).2 } ∨
      r = { scenario := "RCP8.5", floodDepth := formatTwoDecimals f,
            riskLevel := (get_risk_class f).1, color := (get_risk_class f).2 } := by
    simpa [make_flood_table_rows] using hr
  rcases h2 with h | h <;> subst h <;> rfl

/-- Witness for C10 at depths `0, 0` and the first row of the table. -/
theorem highlight_risk_on_table_rows_witness :
    highlight_risk { scenario := "Baseline", floodDepth := formatTwoDecimals 0,
                     riskLevel := (get_risk_class 0).1, color := (get_risk_class 0).2 }
      (make_flood_table_rows 0 0) =
      some ["", "", "color: " ++ (get_risk_class 0).2 ++ "; font-weight: bold;"] :=
  highlight_risk_on_table_rows 0 0 _ (List.Mem.head _)

/-- Claim C1: for every depth `d` the classifier returns `Low` iff `d < 0.5`,
`Medium` iff `0.5 ≤ d ≤ 1.0`, `High` iff `d > 1.0` (boundaries 0.5 and 1.0
are Medium), and the color is bound one-to-one to the level
(`Low ↔ #50d890`, `Medium ↔ #ffc26f`, `High ↔ #ff595e`). -/
theorem get_risk_class_levels_and_colors (d : ℚ) :
    ((get_risk_class d).1 = "Low" ↔ d < 1/2) ∧
    ((get_risk_class d).1 = "Medium" ↔ 1/2 ≤ d ∧ d ≤ 1) ∧
    ((get_risk_class d).1 = "High" ↔ 1 < d) ∧
    ((get_risk_class d).1 = "Low" ↔ (get_risk_class d).2 = "#50d890") ∧
    ((get_risk_class d).1 = "Medium" ↔ (get_risk_class d).2 = "#ffc26f") ∧
    ((get_risk_class d).1 = "High" ↔ (get_risk_class d).2 = "#ff595e") := by
  unfold get_risk_class
  split_ifs with h1 h2
  · exact ⟨⟨fun _ => h1, fun _ => rfl⟩,
      ⟨fun h => absurd h (by decide), fun h => absurd h1 (not_lt.mpr h.1)⟩,
      ⟨fun h => absurd h (by decide), fun h => absurd h1 (not_lt.mpr (le_of_lt (by linarith)))⟩,
      by decide, by decide, by decide⟩
  · push_neg at h1
    exact ⟨⟨fun h => absurd h (by decide), fun hd => absurd hd (not_lt.mpr h1)⟩,
      ⟨fun _ => ⟨h1, h2⟩, fun _ => rfl⟩,
      ⟨fun h => absurd h (by decide), fun hd => absurd hd (not_lt.mpr h2)⟩,
      by decide, by decide, by decide⟩
  · push_neg at h1 h2
    exact ⟨⟨fun h => absurd h (by decide), fun hd => absurd hd (not_lt.mpr h1)⟩,
      ⟨fun h => absurd h (by decide), fun hd => absurd h2 (not_lt.mpr hd.2)⟩,
      ⟨fun _ => h2, fun _ => rfl⟩,
      by decide, by decide, by decide⟩

/-- Claim C9: every negative depth is classified `Low` with color `#50d890`
(the code resolves the spec's undefined negative-depth case by falling into
the `depth < 0.5` branch). -/
theorem get_risk_class_negative (d : ℚ) (h : d < 0) :
    get_risk_class d = ("Low", "#50d890") := by
  unfold get_risk_class
  rw [if_pos (by linarith)]

/-- Witness for C9 at the concrete depth `-1`. -/
theorem get_risk_class_negative_witness :
    get_risk_class (-1) = ("Low", "#50d890") :=
  get_risk_class_negative (-1) (by norm_num)

/-- Counterexample to C3 as stated: the source's regex accepts six digits
followed by a newline (`$` also matches just before a terminal newline), a
string that does not consist of six digits alone. -/
theorem pyMatchSixDigits_newline_counterexample :
    pyMatchSixDigits "123456\n" = true ∧ isSixDigits "123456\n" = false := by
  decide

/-- Claim C3 (amended): on ASCII input the format validation accepts exactly
the six-digit strings together with the six-digit strings followed by one
terminal newline; the claim's examples behave as stated. -/
theorem pyMatchSixDigits_characterization (s : String)
    (h : isAsciiString s = true) :
    pyMatchSixDigits s = (isSixDigits s || isSixDigitsNewline s) ∧
    pyMatchSixDigits "12345" = false ∧
    pyMatchSixDigits "abcdef" = false ∧
    pyMatchSixDigits "1234567" = false ∧
    pyMatchSixDigits " 018989" = false ∧
    pyMatchSixDigits "018989" = true :=
  ⟨rfl, by decide, by decide, by decide, by decide, by decide⟩

/-- Witness for the amended C3 at the concrete string `"018989"`. -/
theorem pyMatchSixDigits_characterization_witness :
    pyMatchSixDigits "018989" =
      (isSixDigits "018989" || isSixDigitsNewline "018989") :=
  (pyMatchSixDigits_characterization "018989" (by decide)).1

/-- Claim C4: for every store and well-formed six-digit code, a present key
returns exactly its record; an absent key yields `notFound`, an outcome
distinct from `invalidFormat`, and the `notFound` query leaves the store
unchanged. -/
theorem runQuery_found_or_notFound (store : List (String × Record))
    (code : String) (h : isSixDigits code = true) :
    (∀ r, store.lookup code = some r →
      runQuery store code = (QueryOutcome.found r, store)) ∧
    (store.lookup code = none →
      runQuery store code = (QueryOutcome.notFound, store) ∧
      QueryOutcome.notFound ≠ QueryOutcome.invalidFormat ∧
      (runQuery store code).2 = store) := by
  have hne : ¬(code = "") := by
    intro hc; rw [hc] at h; exact absurd h (by decide)
  have hmatch : pyMatchSixDigits code = true := by
    unfold pyMatchSixDigits
    unfold isSixDigits at h
    rw [h, Bool.true_or]
  constructor
  · intro r hr
    simp [runQuery, hne, hmatch, hr]
  · intro hr
    exact ⟨by simp [runQuery, hne, hmatch, hr],
      fun hc => QueryOutcome.noConfusion hc,
      by simp [runQuery, hne, hmatch, hr]⟩

/-- Witness for C4 at the one-record demo store and its own key. -/
theorem runQuery_found_or_notFound_witness :
    runQuery demoStore "018989" = (QueryOutcome.found demoRecord, demoStore) :=
  (runQuery_found_or_notFound demoStore "018989" (by decide)).1 demoRecord rfl

/-- Claim C5: initialization is idempotent under caching: a second call to
the cached loader with no invalidation in between returns the very mapping
built by the first call — in particular every record's `isFloodProne` and
`isFloodHotspot` flags are identical across the two calls — and the random
source is left untouched (no resampling). -/
theorem load_data_cached_idempotent (data : List Entry) (g : RNG) :
    (load_data_cached data (load_data_cached data none g).2.1
        (load_data_cached data none g).2.2).1 =
      (load_data_cached data none g).1 ∧
    ((load_data_cached data (load_data_cached data none g).2.1
        (load_data_cached data none g).2.2).1.map
      fun p => (p.2.isFloodProne, p.2.isFloodHotspot)) =
      ((load_data_cached data none g).1.map
        fun p => (p.2.isFloodProne, p.2.isFloodHotspot)) ∧
    (load_data_cached data (load_data_cached data none g).2.1
        (load_data_cached data none g).2.2).2.2 =
      (load_data_cached data none g).2.2 :=
  ⟨rfl, rfl, rfl⟩

/-- Claim C6: each component of the depth pair returned by the scenario
generator lies in `[0, 1.5]` — in particular both are non-negative — given
the `random.random` contract that the source's draws lie in `[0, 1)`. -/
theorem get_flood_depth_range (p : String) (lat lon : ℚ) (g : RNG)
    (h : ∀ n, 0 ≤ g.vals n ∧ g.vals n < 1) :
    (0 ≤ ((get_flood_depth p lat lon g).1).1 ∧
      ((get_flood_depth p lat lon g).1).1 ≤ 3/2) ∧
    (0 ≤ ((get_flood_depth p lat lon g).1).2 ∧
      ((get_flood_depth p lat lon g).1).2 ≤ 3/2) := by
  have h1 := h g.idx
  have h2 := h (g.idx + 1)
  simp only [get_flood_depth, uniform, RNG.next]
  constructor
  · constructor <;> nlinarith [h1.1, h1.2]
  · constructor <;> nlinarith [h2.1, h2.2]

/-- Witness for C6 at a concrete random source constantly `1/2`. -/
theorem get_flood_depth_range_witness :
    (0 ≤ ((get_flood_depth "018989" (1287/1000) (103859/1000)
        ⟨fun _ => 1/2, 0⟩).1).1 ∧
      ((get_flood_depth "018989" (1287/1000) (103859/1000)
        ⟨fun _ => 1/2, 0⟩).1).1 ≤ 3/2) ∧
    (0 ≤ ((get_flood_depth "018989" (1287/1000) (103859/1000)
        ⟨fun _ => 1/2, 0⟩).1).2 ∧
      ((get_flood_depth "018989" (1287/1000) (103859/1000)
        ⟨fun _ => 1/2, 0⟩).1).2 ≤ 3/2) :=
  get_flood_depth_range "018989" (1287/1000) (103859/1000) ⟨fun _ => 1/2, 0⟩
    (fun _ => ⟨by norm_num, by norm_num⟩)

/-- Claim C8: the scenario generator's output does not depend on its
arguments: with the same random-source state, any two argument lists give
the same depth pair (the implementation ignores the postal code and the
coordinates). -/
theorem get_flood_depth_ignores_arguments (p1 p2 : String)
    (lat1 lon1 lat2 lon2 : ℚ) (g : RNG) :
    get_flood_depth p1 lat1 lon1 g = get_flood_depth p2 lat2 lon2 g := rfl

/-- Helper: a string accepted by `isHashHexColor` is a hash mark followed by
exactly six characters. -/
theorem isHashHexColor_shape (s : String) (h : isHashHexColor s = true) :
    ∃ a b c d e f, s.data = ['#', a, b, c, d, e, f] := by
  unfold isHashHexColor at h
  split at h
  case h_1 rest heq =>
    simp only [Bool.and_eq_true, beq_iff_eq] at h
    obtain ⟨hlen, -⟩ := h
    rcases rest with _ | ⟨a, rest⟩
    · simp at hlen
    rcases rest with _ | ⟨b, rest⟩
    · simp at hlen
    rcases rest with _ | ⟨c, rest⟩
    · simp at hlen
    rcases rest with _ | ⟨d, rest⟩
    · simp at hlen
    rcases rest with _ | ⟨e, rest⟩
    · simp at hlen
    rcases rest with _ | ⟨f, rest⟩
    · simp at hlen
    rcases rest with _ | ⟨x, rest⟩
    · exact ⟨a, b, c, d, e, f, heq⟩
    · simp at hlen
  case h_2 => simp at h

/-- Helper: `hexByte` on a two-character list, cast to `ℚ`. -/
theorem hexByte_pair_cast (a b : Char) :
    ((hexByte [a, b] : ℕ) : ℚ) =
      16 * (hexDigitVal a : ℚ) + (hexDigitVal b : ℚ) := by
  simp only [hexByte]
  push_cast
  ring

/-- Helper: the contrast helper agrees with the spec formula on every
well-formed color string. -/
theorem get_text_color_eq_spec (s : String) (h : isHashHexColor s = true) :
    get_text_color s = textColorSpec s := by
  obtain ⟨a, b, c, d, e, f, hs⟩ := isHashHexColor_shape s h
  simp only [get_text_color, textColorSpec]
  rw [hs]
  rw [show List.take 2 (List.drop 1 ['#', a, b, c, d, e, f]) = [a, b] from rfl,
    show List.take 2 (List.drop 3 ['#', a, b, c, d, e, f]) = [c, d] from rfl,
    show List.take 2 (List.drop 5 ['#', a, b, c, d, e, f]) = [e, f] from rfl]
  rw [hexByte_pair_cast a b, hexByte_pair_cast c d, hexByte_pair_cast e f]
  rfl

/-- Helper: the Low color evaluates to black text. -/
theorem get_text_color_low : get_text_color "#50d890" = "black" := by
  have h1 : hexByte ((("#50d890" : String).data.drop 1).take 2) = 80 := by decide
  have h2 : hexByte ((("#50d890" : String).data.drop 3).take 2) = 216 := by decide
  have h3 : hexByte ((("#50d890" : String).data.drop 5).take 2) = 144 := by decide
  simp only [get_text_color, h1, h2, h3]
  norm_num

/-- Helper: the High color evaluates to black text. -/
theorem get_text_color_high : get_text_color "#ff595e" = "black" := by
  have h1 : hexByte ((("#ff595e" : String).data.drop 1).take 2) = 255 := by decide
  have h2 : hexByte ((("#ff595e" : String).data.drop 3).take 2) = 89 := by decide
  have h3 : hexByte ((("#ff595e" : String).data.drop 5).take 2) = 94 := by decide
  simp only [get_text_color, h1, h2, h3]
  norm_num

/-- Claim C7: for every string of the form hash mark plus six hex digits the
contrast helper returns the same color as the spec's luminance formula, and
on the two listed colors that formula yields black. -/
theorem get_text_color_agrees (s : String) (h : isHashHexColor s = true) :
    get_text_color s = textColorSpec s ∧
    get_text_color "#50d890" = "black" ∧
    get_text_color "#ff595e" = "black" :=
  ⟨get_text_color_eq_spec s h, get_text_color_low, get_text_color_high⟩

/-- Witness for C7 at the concrete color string of the Low band. -/
theorem get_text_color_agrees_witness :
    get_text_color "#50d890" = textColorSpec "#50d890" :=
  (get_text_color_agrees "#50d890" (by decide)).1

end FloodTool
